import Mathlib

/-!
Shallow embedding of the vloggo structured-logging library.

The embedding follows the TypeScript sources:
  * `FileService`   (src/internal/fileService.ts): daily log files, rotation,
    retention cleanup, dual text/JSON streams;
  * `EmailService`  (src/internal/emailService.ts): throttled error alerts;
  * `FormatService` (src/internal/formatService.ts): dates, filenames,
    banners, caller location;
  * `VLoggo`        (src/services/logService.ts): the public facade.

The host clock (`new Date()`, `Date.now()`), the success or failure of each
filesystem call, the captured stack trace and the regex engine are inputs of
the embedded functions: each method takes them as explicit parameters.
Side effects are returned as an explicit list of `Effect` values; an `Effect`
is recorded only for an operation that actually happened (a failed
`appendFileSync` produces no `append` effect, only the `consoleError` that
the surrounding catch block logs).  The embedded functions are total: the
TypeScript methods never let an exception escape (every fallible region is
wrapped in try/catch), which the embedding reflects by always returning a
state/effect pair.
-/

namespace Vloggo

/-- Calendar instant as delivered by the host `new Date()`:
`day` is `getDate()` (day of month), the other fields feed the formatter. -/
structure DateTime where
  year : Nat
  month : Nat
  day : Nat
  hour : Nat
  minute : Nat
  second : Nat
deriving DecidableEq, Repr

/-- Configuration snapshot, the getters of `Config` (src/config/config.ts)
that the three services read: client name, json-stream switch, debug and
console switches, per-stream directories and retention caps, the email
throttle interval (ms) and whether an SMTP configuration is present. -/
structure Config where
  client : String
  json : Bool
  debug : Bool
  console : Bool
  dirTxt : String
  dirJson : String
  filecountTxt : Nat
  filecountJson : Nat
  throttle : Int
  smtpPresent : Bool
deriving DecidableEq, Repr

namespace FormatService

/-- `num.toString().padStart(2, "0")` for a nonnegative integer. -/
def pad2 (n : Nat) : String :=
  if n < 10 then "0" ++ toString n else toString n

/-- `FormatService.date`: formats an instant as `DD/MM/YYYY HH:mm:ss`. -/
def date (d : DateTime) : String :=
  pad2 d.day ++ "/" ++ pad2 d.month ++ "/" ++ toString d.year ++ " " ++
    pad2 d.hour ++ ":" ++ pad2 d.minute ++ ":" ++ pad2 d.second

/-- `FormatService.filename`: `log-YYYY-MM-DD.txt` for the given instant. -/
def filename (d : DateTime) : String :=
  "log-" ++ toString d.year ++ "-" ++ pad2 d.month ++ "-" ++ pad2 d.day ++ ".txt"

/-- Modelled from the spec: the JSON-stream filename `log-YYYY-MM-DD.jsonl`
(spec section 6); `FormatService.jsonFilename` is called by the dual-stream
`FileService` but its body is not among the source files. -/
def jsonFilename (d : DateTime) : String :=
  "log-" ++ toString d.year ++ "-" ++ pad2 d.month ++ "-" ++ pad2 d.day ++ ".jsonl"

/-- `FormatService.separator`: the banner appended when a daily text file is
created — 50 underscores framed by blank lines, then an `[INIT]` line. -/
def separator (client : String) (d : DateTime) : String :=
  ("\n".pushn '_' 50) ++ "\n\n" ++
    "[" ++ client ++ "] [" ++ date d ++ "] [INIT] : loggo initialized successfully \n"

/-- Modelled from the spec: the JSON-shaped banner for a new daily JSON file
(spec sections 4.1 and 6); `FormatService.jsonSeparator` is called by the
dual-stream `FileService` but its body is not among the source files. -/
def jsonSeparator (client : String) (d : DateTime) : String :=
  "\x7b\"client\":\"" ++ client ++ "\",\"timestamp\":\"" ++ date d ++
    "\",\"level\":\"INIT\",\"message\":\"loggo initialized successfully\"\x7d\n"

/-- `filepath.split(/[/\\]/).pop() || filepath`: last path component, falling
back to the whole path when the last component is the empty string. -/
def lastComponent (p : String) : String :=
  match (p.split (fun c => c = '/' || c = '\\')).getLast? with
  | some s => if s = "" then p else s
  | none => p

/-- `FormatService.caller(skip)`: resolves the call site from the captured
stack trace.  `stack` is `new Error().stack` (absent when the host provides
none), split into lines; `rmatch` is the host regex engine applied to one
stack line, returning the captured `(filepath, line)` pair on a match of
either documented pattern and `none` otherwise.  Every fallback branch
returns the literal sentinel written in the source. -/
def caller (stack : Option (List String)) (skip : Nat)
    (rmatch : String → Option (String × String)) : String :=
  match stack with
  | none => "(unknow:0)"
  | some lines =>
    match lines[skip + 2]? with
    | none => "(unknow:0)"
    | some target =>
      match rmatch target with
      | none => "(unknow:0)"
      | some (filepath, ln) => lastComponent filepath ++ ":" ++ ln

/-- `FormatService.line`: one formatted text log line. -/
def line (client : String) (d : DateTime) (level code callerLoc message : String) : String :=
  "[" ++ client ++ "] [" ++ date d ++ "] [" ++ level ++ "] [" ++ code ++ "] [" ++
    callerLoc ++ "]: " ++ message ++ "\n"

/-- Modelled from the spec: the JSON log line with keys client, timestamp,
level, code, caller, message (spec section 6); `FormatService.jsonLine` is
called by the facade but its body is not among the source files. -/
def jsonLine (client : String) (d : DateTime) (level code callerLoc message : String) : String :=
  "\x7b\"client\":\"" ++ client ++ "\",\"timestamp\":\"" ++ date d ++
    "\",\"level\":\"" ++ level ++ "\",\"code\":\"" ++ code ++ "\",\"caller\":\"" ++
    callerLoc ++ "\",\"message\":\"" ++ message ++ "\"\x7d\n"

end FormatService

/-- `path.resolve(dir, name)` for an absolute `dir`. -/
def pathResolve (dir name : String) : String := dir ++ "/" ++ name

/-- Observable side effect of one embedded call, in program order. -/
inductive Effect
  | mkdir (dir : String)
  | append (file content : String)
  | rotateInvoked
  | consoleWarn (msg : String)
  | consoleError (msg : String)
  | consoleInfo (msg : String)
  | notifyCalled (client code message : String)
  | deliveryAttempt (subject errText : String)
deriving DecidableEq, Repr

/-- Mutable fields of `FileService`. -/
structure FileServiceState where
  txtFilename : String
  jsonFilename : String
  currentDay : Nat
  initialized : Bool
deriving DecidableEq, Repr

/-- Outcome of the synchronous I/O block of `initialize`/`verify`: either
every call succeeds, or the named call is the first one to throw (a json
failure point is meaningful only when the json stream is enabled and the
earlier calls succeeded; otherwise that point is never reached and the run
behaves like `ok`). -/
inductive SyncIo
  | ok
  | failMkdirTxt
  | failAppendTxt
  | failMkdirJson
  | failAppendJson
deriving DecidableEq, Repr

/-- Outcome of the append block of `write`: success, text append throws,
or (when reached) json append throws. -/
inductive WriteIo
  | ok
  | failTxt
  | failJson
deriving DecidableEq, Repr

/-- Shared `[VLoggo] > [client] [date] [LEVEL]` message prefix. -/
def msgPrefix (client : String) (now : DateTime) (level : String) : String :=
  "[VLoggo] > [" ++ client ++ "] [" ++ FormatService.date now ++ "] [" ++ level ++ "] : "

namespace FileService

/-- `FileService.initialize()` (named `initService` here): no-op when already
initialized; otherwise records today's day of month, creates the text
directory, resolves today's text filename, appends the text banner, repeats
for the JSON stream when enabled, and only then sets `initialized`.  A throw
at any point is caught: the fields assigned before the throw keep their new
values, `initialized` stays false, and the catch block logs one error. -/
def initService (cfg : Config) (s : FileServiceState) (now : DateTime) (io : SyncIo) :
    FileServiceState × List Effect :=
  if s.initialized then (s, [])
  else
    let err := Effect.consoleError
      (msgPrefix cfg.client now "ERROR" ++ "error initializing VLoggo")
    let s := { s with currentDay := now.day }
    if io = .failMkdirTxt then (s, [err])
    else
      let s := { s with txtFilename := pathResolve cfg.dirTxt (FormatService.filename now) }
      if io = .failAppendTxt then (s, [Effect.mkdir cfg.dirTxt, err])
      else
        let txtEffs := [Effect.mkdir cfg.dirTxt,
          Effect.append s.txtFilename (FormatService.separator cfg.client now)]
        if cfg.json then
          if io = .failMkdirJson then (s, txtEffs ++ [err])
          else
            let s := { s with
              jsonFilename := pathResolve cfg.dirJson (FormatService.jsonFilename now) }
            if io = .failAppendJson then (s, txtEffs ++ [Effect.mkdir cfg.dirJson, err])
            else
              ({ s with initialized := true },
                txtEffs ++ [Effect.mkdir cfg.dirJson,
                  Effect.append s.jsonFilename (FormatService.jsonSeparator cfg.client now)])
        else ({ s with initialized := true }, txtEffs)

/-- `FileService.write(line, json?)`: warns and does nothing when not
initialized.  Otherwise appends `line` to the active text file and, when the
json stream is enabled and a json line was supplied, appends it to the
active JSON file.  Both appends sit in one try block: a throw is caught and
logged, and a text-append throw means the json append is never reached. -/
def write (cfg : Config) (s : FileServiceState) (now : DateTime)
    (line : String) (json : Option String) (io : WriteIo) :
    FileServiceState × List Effect :=
  if s.initialized then
    let err := Effect.consoleError
      (msgPrefix cfg.client now "ERROR" ++ "failed to write to log file")
    if io = .failTxt then (s, [err])
    else
      let txtEff := Effect.append s.txtFilename line
      match json with
      | some j =>
        if cfg.json then
          if io = .failJson then (s, [txtEff, err])
          else (s, [txtEff, Effect.append s.jsonFilename j])
        else (s, [txtEff])
      | none => (s, [txtEff])
  else
    (s, [Effect.consoleWarn (msgPrefix cfg.client now "WARN" ++ "file service not initialized")])

/-- `FileService.verify()`: returns at once when today's day of month equals
the stored `_currentDay`.  On a day change it recreates directories, file
paths and banners exactly as `initialize` does, sets `initialized`, and
fires `rotate()` (fire-and-forget).  The source never assigns
`_currentDay` here, which the embedding reproduces faithfully. -/
def verify (cfg : Config) (s : FileServiceState) (now : DateTime) (io : SyncIo) :
    FileServiceState × List Effect :=
  if now.day = s.currentDay then (s, [])
  else
    let err := Effect.consoleError
      (msgPrefix cfg.client now "ERROR" ++ "error verifying VLoggo rotation")
    if io = .failMkdirTxt then (s, [err])
    else
      let s := { s with txtFilename := pathResolve cfg.dirTxt (FormatService.filename now) }
      if io = .failAppendTxt then (s, [Effect.mkdir cfg.dirTxt, err])
      else
        let txtEffs := [Effect.mkdir cfg.dirTxt,
          Effect.append s.txtFilename (FormatService.separator cfg.client now)]
        if cfg.json then
          if io = .failMkdirJson then (s, txtEffs ++ [err])
          else
            let s := { s with
              jsonFilename := pathResolve cfg.dirJson (FormatService.jsonFilename now) }
            if io = .failAppendJson then (s, txtEffs ++ [Effect.mkdir cfg.dirJson, err])
            else
              ({ s with initialized := true },
                txtEffs ++ [Effect.mkdir cfg.dirJson,
                  Effect.append s.jsonFilename (FormatService.jsonSeparator cfg.client now),
                  Effect.rotateInvoked])
        else ({ s with initialized := true }, txtEffs ++ [Effect.rotateInvoked])

end FileService

/-- One directory entry as seen by `rotate()` after `readdir` plus `stat`:
the file's name and its modification time in epoch milliseconds. -/
structure DirEntry where
  name : String
  mtime : Int
deriving DecidableEq, Repr

namespace FileService

/-- Comparator of `rotate()`: `(a, b) => b.mtime - a.mtime`, i.e. newest
first. -/
def newerFirst (a b : DirEntry) : Bool := decide (b.mtime ≤ a.mtime)

/-- `file.endsWith(suffix)` on the character sequences of the strings. -/
def strEndsWith (s suffix : String) : Bool :=
  List.isSuffixOf suffix.data s.data

/-- One stream's cleanup pass inside `rotate()`: filter the directory
listing by the stream's suffix, sort descending by modification time, and
when the count exceeds the cap split off everything beyond the cap
(`slice(cap)`) for deletion.  Returns (files kept, files to delete). -/
def rotateSelect (suffix : String) (cap : Nat) (entries : List DirEntry) :
    List DirEntry × List DirEntry :=
  let logFiles := (entries.filter (fun f => FileService.strEndsWith f.name suffix)).mergeSort newerFirst
  if cap < logFiles.length then (logFiles.take cap, logFiles.drop cap)
  else (logFiles, [])

/-- The deletion loop of `rotate()`: every selected file gets its own
`unlink` attempt with its own try/catch (`Promise.allSettled` over
independent promises), so one failure never stops the others.  `fails`
says which `unlink` calls throw; the result records, per file, whether
its deletion succeeded. -/
def runDeletions (toDelete : List DirEntry) (fails : String → Bool) :
    List (String × Bool) :=
  toDelete.map (fun f => (f.name, ! fails f.name))

/-- `FileService.rotate()`: the text-stream pass over the text directory
listing and, when the json stream is enabled, the json-stream pass over the
json directory listing.  Each pass is `rotateSelect` with that stream's
suffix and cap. -/
def rotate (cfg : Config) (txtEntries jsonEntries : List DirEntry) :
    (List DirEntry × List DirEntry) × Option (List DirEntry × List DirEntry) :=
  (rotateSelect ".txt" cfg.filecountTxt txtEntries,
    if cfg.json then some (rotateSelect ".jsonl" cfg.filecountJson jsonEntries) else none)

end FileService

/-- Mutable fields of `EmailService`: whether `createTransport` succeeded
(`transporter` is non-null), the `_ready` flag, and the epoch-ms time of
the last accepted send. -/
structure EmailServiceState where
  hasTransporter : Bool
  ready : Bool
  lastEmailSent : Int
deriving DecidableEq, Repr

namespace EmailService

/-- The constructor path of `EmailService` (its private `initialize`):
without an SMTP configuration the service stays silently not-ready; with
one, a successful `createTransport` sets the transporter and `_ready`,
while a throw leaves the transporter null and `_ready` false.
`lastEmailSent` starts at 0. -/
def mkState (cfg : Config) (transportOk : Bool) : EmailServiceState :=
  if cfg.smtpPresent then
    if transportOk then ⟨true, true, 0⟩ else ⟨false, false, 0⟩
  else ⟨false, false, 0⟩

/-- Number of delivery attempts recorded in an effect list. -/
def attempts (effs : List Effect) : Nat :=
  effs.countP (fun e => match e with | Effect.deliveryAttempt _ _ => true | _ => false)

/-- `EmailService.sendErrorNotification(client, code, error)`: logs an error
and returns when the transporter is null or no SMTP config exists; returns
silently (debug message aside) when less than `throttle` ms elapsed since
`lastEmailSent`; otherwise sets `lastEmailSent := now` first and then makes
exactly one `sendMail` attempt, whose failure is caught and only logged. -/
def sendErrorNotification (cfg : Config) (s : EmailServiceState)
    (client code errText : String) (now : Int) (nowD : DateTime) (deliveryOk : Bool) :
    EmailServiceState × List Effect :=
  if s.hasTransporter && cfg.smtpPresent then
    if now - s.lastEmailSent < cfg.throttle then
      (s, if cfg.debug then
        [Effect.consoleInfo (msgPrefix cfg.client nowD "INFO" ++ "email throttled")] else [])
    else
      let s := { s with lastEmailSent := now }
      let subject := "[" ++ client ++ "] Error Alert - " ++ code
      if deliveryOk then
        (s, [Effect.deliveryAttempt subject errText] ++
          (if cfg.debug then
            [Effect.consoleInfo (msgPrefix cfg.client nowD "INFO" ++
              "error email sent successfully")] else []))
      else
        (s, [Effect.deliveryAttempt subject errText,
          Effect.consoleError (msgPrefix cfg.client nowD "ERROR" ++
            "failed to send error message")])
  else
    (s, [Effect.consoleError (msgPrefix cfg.client nowD "ERROR" ++
      "failed to send error message > email service not initialized")])

end EmailService

/-- Log severity levels of the facade. -/
inductive LogLevel
  | INFO
  | WARN
  | DEBUG
  | ERROR
  | FATAL
deriving DecidableEq, Repr

/-- Printed form of a level, as interpolated into the formatted line. -/
def LogLevel.str : LogLevel → String
  | .INFO => "INFO"
  | .WARN => "WARN"
  | .DEBUG => "DEBUG"
  | .ERROR => "ERROR"
  | .FATAL => "FATAL"

/-- The two service states owned by one `VLoggo` instance. -/
structure VLoggoState where
  fs : FileServiceState
  es : EmailServiceState
deriving Repr

/-- Host-supplied inputs of one internal `log` call: the clock reading, the
fate of the synchronous I/O of `verify` and of the appends of `write`, the
captured stack trace and the regex engine for `caller`. -/
structure LogEnv where
  now : DateTime
  verifyIo : SyncIo
  writeIo : WriteIo
  stack : Option (List String)
  rmatch : String → Option (String × String)

namespace VLoggo

/-- Console channel selected by the facade's severity switch. -/
def consoleEcho (level : LogLevel) (msg : String) : Effect :=
  match level with
  | .INFO | .DEBUG => Effect.consoleInfo msg
  | .WARN => Effect.consoleWarn msg
  | .ERROR | .FATAL => Effect.consoleError msg

/-- `VLoggo.log(level, code, message)` (private): returns with an error
message when the file service is not initialized.  Otherwise runs
`verify()`, builds the entry (caller resolved at stack depth 2), formats
the text line (and the JSON line when enabled), writes, and echoes the
trimmed line to the console channel of the severity when console output is
on. -/
def log (cfg : Config) (st : VLoggoState) (level : LogLevel) (code message : String)
    (env : LogEnv) : VLoggoState × List Effect :=
  if st.fs.initialized then
    let r1 := FileService.verify cfg st.fs env.now env.verifyIo
    let callerLoc := FormatService.caller env.stack 2 env.rmatch
    let line := FormatService.line cfg.client env.now level.str code callerLoc message
    let json :=
      if cfg.json then
        some (FormatService.jsonLine cfg.client env.now level.str code callerLoc message)
      else none
    let r2 := FileService.write cfg r1.1 env.now line json env.writeIo
    let echo := if cfg.console then [consoleEcho level line.trim] else []
    ({ st with fs := r2.1 }, r1.2 ++ r2.2 ++ echo)
  else
    (st, [Effect.consoleError
      (msgPrefix cfg.client env.now "ERROR" ++ "VLoggo not initialized > skipping log")])

/-- `VLoggo.info`. -/
def info (cfg : Config) (st : VLoggoState) (code text : String) (env : LogEnv) :
    VLoggoState × List Effect :=
  log cfg st .INFO code text env

/-- `VLoggo.warn`. -/
def warn (cfg : Config) (st : VLoggoState) (code text : String) (env : LogEnv) :
    VLoggoState × List Effect :=
  log cfg st .WARN code text env

/-- `VLoggo.debug`. -/
def debug (cfg : Config) (st : VLoggoState) (code text : String) (env : LogEnv) :
    VLoggoState × List Effect :=
  log cfg st .DEBUG code text env

/-- `VLoggo.error`. -/
def error (cfg : Config) (st : VLoggoState) (code text : String) (env : LogEnv) :
    VLoggoState × List Effect :=
  log cfg st .ERROR code text env

/-- `VLoggo.fatal(code, text)`: logs at FATAL, then — when the email
service's `ready` getter is true — calls
`sendErrorNotification(config.client, code, text)` fire-and-forget (its
rejection is caught and logged).  The `notifyCalled` effect marks the
invocation with its exact arguments; the email service's own effects
follow it. -/
def fatal (cfg : Config) (st : VLoggoState) (code text : String) (env : LogEnv)
    (emailNow : Int) (deliveryOk : Bool) : VLoggoState × List Effect :=
  let r1 := log cfg st .FATAL code text env
  if r1.1.es.ready then
    let r2 := EmailService.sendErrorNotification cfg r1.1.es cfg.client code text
      emailNow env.now deliveryOk
    ({ r1.1 with es := r2.1 },
      r1.2 ++ [Effect.notifyCalled cfg.client code text] ++ r2.2)
  else
    (r1.1, r1.2 ++
      (if cfg.debug then
        [Effect.consoleInfo (msgPrefix cfg.client env.now "INFO" ++
          "notification service not ready")] else []))

end VLoggo

/-- One call through the public logging interface of `VLoggo`. -/
inductive PublicCall
  | info (code text : String) (env : LogEnv)
  | warn (code text : String) (env : LogEnv)
  | debug (code text : String) (env : LogEnv)
  | error (code text : String) (env : LogEnv)
  | fatal (code text : String) (env : LogEnv) (emailNow : Int) (deliveryOk : Bool)

/-- Dispatch one public call. -/
def runCall (cfg : Config) (st : VLoggoState) : PublicCall → VLoggoState × List Effect
  | .info code text env => VLoggo.info cfg st code text env
  | .warn code text env => VLoggo.warn cfg st code text env
  | .debug code text env => VLoggo.debug cfg st code text env
  | .error code text env => VLoggo.error cfg st code text env
  | .fatal code text env emailNow deliveryOk =>
      VLoggo.fatal cfg st code text env emailNow deliveryOk

/-- Run a sequence of public calls, threading the state and concatenating
the effects. -/
def runCalls (cfg : Config) : List PublicCall → VLoggoState → VLoggoState × List Effect
  | [], st => (st, [])
  | c :: cs, st =>
    let r := runCall cfg st c
    let rest := runCalls cfg cs r.1
    (rest.1, r.2 ++ rest.2)

/-- An effect that touches the filesystem: a directory creation, a file
append, or an invocation of the cleanup pass. -/
def Effect.isFileEffect : Effect → Bool
  | .mkdir _ => true
  | .append _ _ => true
  | .rotateInvoked => true
  | _ => false

/-- Number of file appends recorded in an effect list. -/
def appendCount (effs : List Effect) : Nat :=
  effs.countP (fun e => match e with | .append _ _ => true | _ => false)

/-- Fixture: a calendar instant on day `d` of October 2025, noon. -/
def sampleDate (d : Nat) : DateTime := ⟨2025, 10, d, 12, 0, 0⟩

/-- Fixture: configuration with the json stream disabled. -/
def cfgTxt : Config := ⟨"MyApp", false, false, true, "/logs", "/json", 31, 31, 30000, false⟩

/-- Fixture: configuration with the json stream enabled and SMTP present. -/
def cfgJson : Config := ⟨"MyApp", true, false, true, "/logs", "/json", 31, 31, 30000, true⟩

/-- Fixture: an initialized file-service state on day 5. -/
def fsDay5 : FileServiceState := ⟨"/logs/log-2025-10-05.txt", "", 5, true⟩

/-- Fixture: an initialized dual-stream file-service state on day 6. -/
def fsInitJ : FileServiceState :=
  ⟨"/logs/log-2025-10-06.txt", "/json/log-2025-10-06.jsonl", 6, true⟩

/-- Fixture: an uninitialized file-service state. -/
def fsFresh : FileServiceState := ⟨"", "", 0, false⟩

/-- Fixture: a ready email-service state that last sent at epoch 0. -/
def esReady : EmailServiceState := ⟨true, true, 0⟩

/-- Fixture: a benign log-call environment on day 6. -/
def envDay6 : LogEnv := ⟨sampleDate 6, .ok, .ok, none, fun _ => none⟩

/-- Fixture: a directory listing with four `.txt` log files (modification
times 100..400) and one unrelated file. -/
def sampleEntries : List DirEntry :=
  [⟨"log-2025-10-01.txt", 100⟩, ⟨"log-2025-10-03.txt", 300⟩,
   ⟨"notes.md", 999⟩, ⟨"log-2025-10-02.txt", 200⟩, ⟨"log-2025-10-04.txt", 400⟩]

namespace EmailService

theorem send_pass (cfg : Config) (s : EmailServiceState) (client code errText : String)
    (now : Int) (nowD : DateTime) (deliveryOk : Bool)
    (htr : s.hasTransporter = true) (hsm : cfg.smtpPresent = true)
    (hpass : cfg.throttle ≤ now - s.lastEmailSent) :
    (sendErrorNotification cfg s client code errText now nowD deliveryOk).1 =
      { s with lastEmailSent := now } ∧
    attempts (sendErrorNotification cfg s client code errText now nowD deliveryOk).2 = 1 := by
  have hlt : ¬ (now - s.lastEmailSent < cfg.throttle) := not_lt.mpr hpass
  cases deliveryOk <;> cases hdbg : cfg.debug <;>
    simp [sendErrorNotification, htr, hsm, hlt, hdbg, attempts]

theorem send_throttled (cfg : Config) (s : EmailServiceState) (client code errText : String)
    (now : Int) (nowD : DateTime) (deliveryOk : Bool)
    (htr : s.hasTransporter = true) (hsm : cfg.smtpPresent = true)
    (hth : now - s.lastEmailSent < cfg.throttle) :
    (sendErrorNotification cfg s client code errText now nowD deliveryOk).1 = s ∧
    attempts (sendErrorNotification cfg s client code errText now nowD deliveryOk).2 = 0 := by
  cases hdbg : cfg.debug <;>
    simp [sendErrorNotification, htr, hsm, hth, hdbg, attempts]

theorem send_no_file_effects (cfg : Config) (s : EmailServiceState)
    (client code errText : String) (now : Int) (nowD : DateTime) (deliveryOk : Bool) :
    ∀ e ∈ (sendErrorNotification cfg s client code errText now nowD deliveryOk).2,
      e.isFileEffect = false := by
  intro e he
  simp only [sendErrorNotification] at he
  split at he
  · split at he
    · split at he
      · simp only [List.mem_singleton] at he
        subst he; rfl
      · simp at he
    · split at he
      · simp only [List.cons_append, List.nil_append, List.mem_cons] at he
        rcases he with rfl | he
        · rfl
        · split at he
          · simp only [List.mem_singleton] at he
            subst he; rfl
          · simp at he
      · simp only [List.mem_cons, List.mem_singleton, List.not_mem_nil, or_false] at he
        rcases he with rfl | rfl <;> rfl
  · simp only [List.mem_singleton] at he
    subst he; rfl

end EmailService

/-- C3: throttle gating.  For a ready email service whose first call at `t1`
passes the throttle check, that call makes exactly one delivery attempt;
a second call at `t2` with `t2 - t1` below the throttle interval makes no
attempt (dropped, not queued) — one attempt in total — while a second call
separated by more than the interval makes its own single attempt — two in
total.  Every call that passes readiness and throttle makes exactly one
attempt, with no retry. -/
theorem C3_throttle_gating (cfg : Config) (s : EmailServiceState)
    (client code errText : String) (t1 t2 : Int) (d1 d2 : DateTime) (ok1 ok2 : Bool)
    (htr : s.hasTransporter = true) (hsm : cfg.smtpPresent = true)
    (hfirst : cfg.throttle ≤ t1 - s.lastEmailSent) :
    EmailService.attempts
      (EmailService.sendErrorNotification cfg s client code errText t1 d1 ok1).2 = 1 ∧
    (t2 - t1 < cfg.throttle →
      EmailService.attempts (EmailService.sendErrorNotification cfg
        (EmailService.sendErrorNotification cfg s client code errText t1 d1 ok1).1
        client code errText t2 d2 ok2).2 = 0) ∧
    (cfg.throttle < t2 - t1 →
      EmailService.attempts (EmailService.sendErrorNotification cfg
        (EmailService.sendErrorNotification cfg s client code errText t1 d1 ok1).1
        client code errText t2 d2 ok2).2 = 1) := by
  obtain ⟨hs1, ha1⟩ :=
    EmailService.send_pass cfg s client code errText t1 d1 ok1 htr hsm hfirst
  refine ⟨ha1, ?_, ?_⟩
  · intro hwin
    have := EmailService.send_throttled cfg
      { s with lastEmailSent := t1 } client code errText t2 d2 ok2 htr hsm (by simpa using hwin)
    rw [hs1]
    exact this.2
  · intro hsep
    have := EmailService.send_pass cfg
      { s with lastEmailSent := t1 } client code errText t2 d2 ok2 htr hsm
      (by simpa using le_of_lt hsep)
    rw [hs1]
    exact this.2

/-- C3 witness: concrete ready service, throttle 30000, calls at 40000 and
50000 (within the window) and at 80000 (past it). -/
theorem C3_throttle_gating_witness :
    EmailService.attempts
      (EmailService.sendErrorNotification cfgJson esReady "MyApp" "E1" "boom"
        40000 (sampleDate 6) true).2 = 1 ∧
    ((50000 : Int) - 40000 < cfgJson.throttle →
      EmailService.attempts (EmailService.sendErrorNotification cfgJson
        (EmailService.sendErrorNotification cfgJson esReady "MyApp" "E1" "boom"
          40000 (sampleDate 6) true).1
        "MyApp" "E1" "boom" 50000 (sampleDate 6) true).2 = 0) ∧
    (cfgJson.throttle < (80000 : Int) - 40000 → True) := by
  refine ⟨?_, ?_, fun _ => trivial⟩
  · exact (C3_throttle_gating cfgJson esReady "MyApp" "E1" "boom" 40000 50000
      (sampleDate 6) (sampleDate 6) true true rfl rfl (by decide)).1
  · exact (C3_throttle_gating cfgJson esReady "MyApp" "E1" "boom" 40000 50000
      (sampleDate 6) (sampleDate 6) true true rfl rfl (by decide)).2.1

/-- C4: failed sends still count against the throttle.  A call that passes
the checks records `lastEmailSent := t1` even when delivery fails, the
failure is only logged (the state carries no error, the function returns
normally), and a follow-up call within the window is suppressed. -/
theorem C4_failed_send_counts (cfg : Config) (s : EmailServiceState)
    (client code errText : String) (t1 t2 : Int) (d1 d2 : DateTime) (ok2 : Bool)
    (htr : s.hasTransporter = true) (hsm : cfg.smtpPresent = true)
    (hpass : cfg.throttle ≤ t1 - s.lastEmailSent)
    (hwin : t2 - t1 < cfg.throttle) :
    (EmailService.sendErrorNotification cfg s client code errText t1 d1 false).1.lastEmailSent
      = t1 ∧
    EmailService.attempts
      (EmailService.sendErrorNotification cfg s client code errText t1 d1 false).2 = 1 ∧
    EmailService.attempts (EmailService.sendErrorNotification cfg
      (EmailService.sendErrorNotification cfg s client code errText t1 d1 false).1
      client code errText t2 d2 ok2).2 = 0 ∧
    (EmailService.sendErrorNotification cfg
      (EmailService.sendErrorNotification cfg s client code errText t1 d1 false).1
      client code errText t2 d2 ok2).1 =
      (EmailService.sendErrorNotification cfg s client code errText t1 d1 false).1 := by
  obtain ⟨hs1, ha1⟩ :=
    EmailService.send_pass cfg s client code errText t1 d1 false htr hsm hpass
  have h2 := EmailService.send_throttled cfg
    { s with lastEmailSent := t1 } client code errText t2 d2 ok2 htr hsm (by simpa using hwin)
  refine ⟨by rw [hs1], ha1, ?_, ?_⟩
  · rw [hs1]; exact h2.2
  · rw [hs1]; exact h2.1

/-- C4 witness: delivery fails at 40000, follow-up at 50000 is suppressed. -/
theorem C4_failed_send_counts_witness :
    (EmailService.sendErrorNotification cfgJson esReady "MyApp" "E1" "boom"
      40000 (sampleDate 6) false).1.lastEmailSent = 40000 ∧
    EmailService.attempts
      (EmailService.sendErrorNotification cfgJson esReady "MyApp" "E1" "boom"
        40000 (sampleDate 6) false).2 = 1 := by
  have h := C4_failed_send_counts cfgJson esReady "MyApp" "E1" "boom" 40000 50000
    (sampleDate 6) (sampleDate 6) true rfl rfl (by decide) (by decide)
  exact ⟨h.1, h.2.1⟩

/-- C6: write before initialization is a no-op.  With `initialized = false`,
`write` returns the state unchanged and emits exactly the warning — no
directory creation, no append, no exception, for any supplied lines and
any planned append outcome. -/
theorem C6_write_uninitialized (cfg : Config) (s : FileServiceState) (now : DateTime)
    (line : String) (json : Option String) (io : WriteIo)
    (h : s.initialized = false) :
    FileService.write cfg s now line json io =
      (s, [Effect.consoleWarn
        (msgPrefix cfg.client now "WARN" ++ "file service not initialized")]) := by
  simp [FileService.write, h]

/-- C6 witness: the fresh state drops a line without touching anything. -/
theorem C6_write_uninitialized_witness :
    FileService.write cfgTxt fsFresh (sampleDate 6) "L\n" none .ok =
      (fsFresh, [Effect.consoleWarn
        (msgPrefix cfgTxt.client (sampleDate 6) "WARN" ++ "file service not initialized")]) :=
  C6_write_uninitialized cfgTxt fsFresh (sampleDate 6) "L\n" none .ok rfl

/-- C8 counterexample: with no stack information available the returned
sentinel is the literal `(unknow:0)` of the source, not the `unknown:0`
the claim states. -/
theorem C8_sentinel_mismatch :
    FormatService.caller none 0 (fun _ => none) = "(unknow:0)" ∧
    FormatService.caller none 0 (fun _ => none) ≠ "unknown:0" := by
  constructor
  · rfl
  · decide

/-- C8 (amended): in every fallback case — no stack, targeted frame absent,
or targeted frame not matching either pattern — `caller` returns the
sentinel `(unknow:0)` and never throws (the embedded function is total). -/
theorem C8_fallback_sentinel (stack : Option (List String)) (skip : Nat)
    (rmatch : String → Option (String × String))
    (h : stack = none ∨
      (∃ lines, stack = some lines ∧ lines[skip + 2]? = none) ∨
      (∃ lines target, stack = some lines ∧ lines[skip + 2]? = some target ∧
        rmatch target = none)) :
    FormatService.caller stack skip rmatch = "(unknow:0)" := by
  rcases h with rfl | ⟨lines, rfl, hl⟩ | ⟨lines, target, rfl, hl, hm⟩
  · rfl
  · simp [FormatService.caller, hl]
  · simp [FormatService.caller, hl, hm]

/-- C8 witness: a present stack whose targeted frame matches no pattern. -/
theorem C8_fallback_sentinel_witness :
    FormatService.caller (some ["Error", "at a", "at b", "garbage"]) 1
      (fun _ => none) = "(unknow:0)" :=
  C8_fallback_sentinel (some ["Error", "at a", "at b", "garbage"]) 1 (fun _ => none)
    (Or.inr (Or.inr ⟨["Error", "at a", "at b", "garbage"], "garbage", rfl, rfl, rfl⟩))

/-- C1: evaluation at the failing input.  `verify` never assigns
`_currentDay`, so after the day changes from 5 to 6 the first successful
`verify` rotates (banner appended, `rotate()` fired) but leaves the stored
day at 5, and the second `verify` on the same day 6 rotates all over again
instead of being a no-op. -/
theorem C1_verify_reruns_same_day :
    (FileService.verify cfgTxt fsDay5 (sampleDate 6) .ok).1.currentDay = 5 ∧
    Effect.rotateInvoked ∈ (FileService.verify cfgTxt fsDay5 (sampleDate 6) .ok).2 ∧
    appendCount (FileService.verify cfgTxt fsDay5 (sampleDate 6) .ok).2 = 1 ∧
    Effect.rotateInvoked ∈
      (FileService.verify cfgTxt
        (FileService.verify cfgTxt fsDay5 (sampleDate 6) .ok).1 (sampleDate 6) .ok).2 ∧
    appendCount
      (FileService.verify cfgTxt
        (FileService.verify cfgTxt fsDay5 (sampleDate 6) .ok).1 (sampleDate 6) .ok).2 = 1 := by
  decide

/-- C2 counterexample: with the json stream enabled, both lines supplied
and an initialized service, a text-append failure yields only the logged
error — the JSON append is never attempted, so a text-stream failure does
prevent the JSON stream's append. -/
theorem C2_txt_failure_skips_json :
    FileService.write cfgJson fsInitJ (sampleDate 6) "L\n" (some "J\n") .failTxt =
      (fsInitJ, [Effect.consoleError
        (msgPrefix "MyApp" (sampleDate 6) "ERROR" ++ "failed to write to log file")]) := by
  decide

/-- C2 (amended): both appends share a single try block.  A JSON-append
failure cannot affect the text append, which already happened and is kept,
and the failure is only logged; but a text-append failure skips the JSON
append entirely.  Neither failure throws to the caller and the state is
unchanged either way. -/
theorem C2_single_try_block (cfg : Config) (s : FileServiceState) (now : DateTime)
    (line j : String) (hinit : s.initialized = true) (hjson : cfg.json = true) :
    FileService.write cfg s now line (some j) .failJson =
      (s, [Effect.append s.txtFilename line,
        Effect.consoleError
          (msgPrefix cfg.client now "ERROR" ++ "failed to write to log file")]) ∧
    FileService.write cfg s now line (some j) .failTxt =
      (s, [Effect.consoleError
        (msgPrefix cfg.client now "ERROR" ++ "failed to write to log file")]) := by
  constructor <;> simp [FileService.write, hinit, hjson]

/-- C2 witness of the amended claim at a concrete initialized state. -/
theorem C2_single_try_block_witness :
    FileService.write cfgJson fsInitJ (sampleDate 6) "L\n" (some "J\n") .failJson =
      (fsInitJ, [Effect.append fsInitJ.txtFilename "L\n",
        Effect.consoleError
          (msgPrefix cfgJson.client (sampleDate 6) "ERROR" ++ "failed to write to log file")]) :=
  (C2_single_try_block cfgJson fsInitJ (sampleDate 6) "L\n" "J\n" rfl rfl).1

namespace FileService

theorem initService_ok (cfg : Config) (s0 : FileServiceState) (now : DateTime)
    (h0 : s0.initialized = false) :
    (initService cfg s0 now .ok).1.initialized = true ∧
    appendCount (initService cfg s0 now .ok).2 = (if cfg.json then 2 else 1) := by
  cases hj : cfg.json <;> simp [initService, h0, hj, appendCount]

end FileService

/-- C7: idempotent initialization.  An already-initialized service makes a
further `initialize` call a pure no-op — no directory creation, no banner,
state untouched — and consequently an uninitialized service that is
initialized successfully and then initialized again gets exactly one
banner append per enabled stream across the two calls. -/
theorem C7_idempotent_init (cfg : Config) (s s0 : FileServiceState)
    (now now2 : DateTime) (io2 : SyncIo)
    (h : s.initialized = true) (h0 : s0.initialized = false) :
    FileService.initService cfg s now2 io2 = (s, []) ∧
    FileService.initService cfg (FileService.initService cfg s0 now .ok).1 now2 io2 =
      ((FileService.initService cfg s0 now .ok).1, []) ∧
    appendCount ((FileService.initService cfg s0 now .ok).2 ++
      (FileService.initService cfg (FileService.initService cfg s0 now .ok).1 now2 io2).2) =
      (if cfg.json then 2 else 1) := by
  obtain ⟨hi, hc⟩ := FileService.initService_ok cfg s0 now h0
  have hnoop : ∀ s1 : FileServiceState, s1.initialized = true →
      FileService.initService cfg s1 now2 io2 = (s1, []) := by
    intro s1 h1
    simp [FileService.initService, h1]
  refine ⟨hnoop s h, hnoop _ hi, ?_⟩
  rw [hnoop _ hi]
  simpa [appendCount, List.countP_append] using hc

/-- C7 witness: a fresh text-only service initialized on day 5 and again on
day 6 writes exactly one banner. -/
theorem C7_idempotent_init_witness :
    FileService.initService cfgTxt fsDay5 (sampleDate 6) .ok = (fsDay5, []) ∧
    appendCount ((FileService.initService cfgTxt fsFresh (sampleDate 5) .ok).2 ++
      (FileService.initService cfgTxt
        (FileService.initService cfgTxt fsFresh (sampleDate 5) .ok).1 (sampleDate 6) .ok).2) =
      (if cfgTxt.json then 2 else 1) :=
  ⟨(C7_idempotent_init cfgTxt fsDay5 fsFresh (sampleDate 5) (sampleDate 6) .ok rfl rfl).1,
   (C7_idempotent_init cfgTxt fsDay5 fsFresh (sampleDate 5) (sampleDate 6) .ok rfl rfl).2.2⟩

namespace FileService

theorem newerFirst_trans : ∀ a b c : DirEntry,
    newerFirst a b = true → newerFirst b c = true → newerFirst a c = true := by
  intro a b c hab hbc
  simp only [newerFirst, decide_eq_true_eq] at *
  exact le_trans hbc hab

theorem newerFirst_total : ∀ a b : DirEntry,
    (newerFirst a b || newerFirst b a) = true := by
  intro a b
  simp only [newerFirst, Bool.or_eq_true, decide_eq_true_eq]
  exact le_total b.mtime a.mtime

theorem rotateSelect_eq (suffix : String) (cap : Nat) (entries : List DirEntry)
    (h : cap < ((entries.filter (fun f => FileService.strEndsWith f.name suffix)).mergeSort
      newerFirst).length) :
    rotateSelect suffix cap entries =
      (((entries.filter (fun f => FileService.strEndsWith f.name suffix)).mergeSort newerFirst).take cap,
       ((entries.filter (fun f => FileService.strEndsWith f.name suffix)).mergeSort newerFirst).drop cap) := by
  simp [rotateSelect, h]

end FileService

/-- C5: retention cap.  When the directory holds `N` files carrying the
stream's suffix and `N` exceeds the cap, the cleanup pass selects exactly
`N - cap` files for deletion, keeps exactly `cap`, every deleted file's
modification time is at most every kept file's (oldest go first), and
every selected file receives its own independent deletion attempt whatever
the failures of the other attempts. -/
theorem C5_retention_cap (suffix : String) (cap : Nat) (entries : List DirEntry)
    (fails : String → Bool)
    (hN : cap < (entries.filter (fun f => FileService.strEndsWith f.name suffix)).length) :
    (FileService.rotateSelect suffix cap entries).2.length =
      (entries.filter (fun f => FileService.strEndsWith f.name suffix)).length - cap ∧
    (FileService.rotateSelect suffix cap entries).1.length = cap ∧
    (∀ d ∈ (FileService.rotateSelect suffix cap entries).2,
      ∀ k ∈ (FileService.rotateSelect suffix cap entries).1, d.mtime ≤ k.mtime) ∧
    (FileService.runDeletions (FileService.rotateSelect suffix cap entries).2 fails).length =
      (entries.filter (fun f => FileService.strEndsWith f.name suffix)).length - cap ∧
    (∀ f ∈ (FileService.rotateSelect suffix cap entries).2,
      (f.name, ! fails f.name) ∈
        FileService.runDeletions (FileService.rotateSelect suffix cap entries).2 fails) := by
  have hlen : ((entries.filter (fun f => FileService.strEndsWith f.name suffix)).mergeSort
      FileService.newerFirst).length =
      (entries.filter (fun f => FileService.strEndsWith f.name suffix)).length :=
    List.length_mergeSort _
  have hcap : cap < ((entries.filter (fun f => FileService.strEndsWith f.name suffix)).mergeSort
      FileService.newerFirst).length := by rw [hlen]; exact hN
  have hsel := FileService.rotateSelect_eq suffix cap entries hcap
  have hpw : List.Pairwise (fun a b => FileService.newerFirst a b = true)
      ((entries.filter (fun f => FileService.strEndsWith f.name suffix)).mergeSort FileService.newerFirst) :=
    List.sorted_mergeSort FileService.newerFirst_trans FileService.newerFirst_total _
  have hpw2 : List.Pairwise (fun a b => FileService.newerFirst a b = true)
      (((entries.filter (fun f => FileService.strEndsWith f.name suffix)).mergeSort
          FileService.newerFirst).take cap ++
        ((entries.filter (fun f => FileService.strEndsWith f.name suffix)).mergeSort
          FileService.newerFirst).drop cap) := by
    rw [List.take_append_drop]
    exact hpw
  have hsplit := (List.pairwise_append.mp hpw2).2.2
  have hdrop : (FileService.rotateSelect suffix cap entries).2.length =
      (entries.filter (fun f => FileService.strEndsWith f.name suffix)).length - cap := by
    rw [hsel]
    simp [List.length_drop, hlen]
  refine ⟨hdrop, ?_, ?_, ?_, ?_⟩
  · rw [hsel]
    simp only [List.length_take]
    omega
  · intro d hd k hk
    rw [hsel] at hd hk
    have := hsplit k hk d hd
    simpa [FileService.newerFirst] using this
  · rw [FileService.runDeletions, List.length_map]
    exact hdrop
  · intro f hf
    exact List.mem_map_of_mem _ hf

/-- C5 witness: five directory entries, four with the `.txt` suffix, cap 2;
one of the two pending deletions is set to fail. -/
theorem C5_retention_cap_witness :
    (FileService.rotateSelect ".txt" 2 sampleEntries).2.length =
      (sampleEntries.filter (fun f => FileService.strEndsWith f.name ".txt")).length - 2 ∧
    (FileService.rotateSelect ".txt" 2 sampleEntries).1.length = 2 ∧
    (FileService.runDeletions (FileService.rotateSelect ".txt" 2 sampleEntries).2
      (fun n => n == "log-2025-10-01.txt")).length =
      (sampleEntries.filter (fun f => FileService.strEndsWith f.name ".txt")).length - 2 :=
  ⟨(C5_retention_cap ".txt" 2 sampleEntries (fun n => n == "log-2025-10-01.txt")
      (by decide)).1,
   (C5_retention_cap ".txt" 2 sampleEntries (fun n => n == "log-2025-10-01.txt")
      (by decide)).2.1,
   (C5_retention_cap ".txt" 2 sampleEntries (fun n => n == "log-2025-10-01.txt")
      (by decide)).2.2.2.1⟩

/-- C9: `fatal` attempts the notification even when the log entry was
dropped.  With the file service uninitialized and the email service ready,
no file is touched (the internal `log` returns early, so no append, no
directory creation, no rotation) yet `sendErrorNotification` is invoked
with exactly the client name, code and message. -/
theorem C9_fatal_notifies_despite_dropped_log (cfg : Config) (st : VLoggoState)
    (code text : String) (env : LogEnv) (emailNow : Int) (deliveryOk : Bool)
    (hfs : st.fs.initialized = false) (hes : st.es.ready = true) :
    (∀ e ∈ (VLoggo.fatal cfg st code text env emailNow deliveryOk).2,
      e.isFileEffect = false) ∧
    Effect.notifyCalled cfg.client code text ∈
      (VLoggo.fatal cfg st code text env emailNow deliveryOk).2 := by
  have hlog : VLoggo.log cfg st .FATAL code text env =
      (st, [Effect.consoleError (msgPrefix cfg.client env.now "ERROR" ++
        "VLoggo not initialized > skipping log")]) := by
    simp [VLoggo.log, hfs]
  constructor
  · intro e he
    simp only [VLoggo.fatal, hlog, hes, if_true, List.cons_append, List.nil_append,
      List.mem_cons] at he
    rcases he with rfl | rfl | he
    · rfl
    · rfl
    · exact EmailService.send_no_file_effects cfg st.es cfg.client code text emailNow
        env.now deliveryOk e he
  · simp [VLoggo.fatal, hlog, hes]

/-- C9 witness: the notification call is made from a concrete instance
whose file service never initialized. -/
theorem C9_fatal_notifies_witness :
    Effect.notifyCalled cfgJson.client "E1" "boom" ∈
      (VLoggo.fatal cfgJson ⟨fsFresh, esReady⟩ "E1" "boom" envDay6 40000 true).2 :=
  (C9_fatal_notifies_despite_dropped_log cfgJson ⟨fsFresh, esReady⟩ "E1" "boom" envDay6
    40000 true rfl rfl).2

theorem runCall_keeps_fs (cfg : Config) (st : VLoggoState) (c : PublicCall)
    (h : st.fs.initialized = false) :
    (runCall cfg st c).1.fs = st.fs ∧
    ∀ e ∈ (runCall cfg st c).2, e.isFileEffect = false := by
  have hlog : ∀ (level : LogLevel) (code text : String) (env : LogEnv),
      VLoggo.log cfg st level code text env =
        (st, [Effect.consoleError (msgPrefix cfg.client env.now "ERROR" ++
          "VLoggo not initialized > skipping log")]) := by
    intro level code text env
    simp [VLoggo.log, h]
  cases c with
  | info code text env =>
    refine ⟨by simp [runCall, VLoggo.info, hlog], ?_⟩
    intro e he
    simp [runCall, VLoggo.info, hlog] at he
    subst he; rfl
  | warn code text env =>
    refine ⟨by simp [runCall, VLoggo.warn, hlog], ?_⟩
    intro e he
    simp [runCall, VLoggo.warn, hlog] at he
    subst he; rfl
  | debug code text env =>
    refine ⟨by simp [runCall, VLoggo.debug, hlog], ?_⟩
    intro e he
    simp [runCall, VLoggo.debug, hlog] at he
    subst he; rfl
  | error code text env =>
    refine ⟨by simp [runCall, VLoggo.error, hlog], ?_⟩
    intro e he
    simp [runCall, VLoggo.error, hlog] at he
    subst he; rfl
  | fatal code text env emailNow deliveryOk =>
    by_cases hr : st.es.ready = true
    · refine ⟨by simp [runCall, VLoggo.fatal, hlog, hr], ?_⟩
      intro e he
      simp only [runCall, VLoggo.fatal, hlog, hr, if_true, List.cons_append,
        List.nil_append, List.mem_cons] at he
      rcases he with rfl | rfl | he
      · rfl
      · rfl
      · exact EmailService.send_no_file_effects cfg st.es cfg.client code text emailNow
          env.now deliveryOk e he
    · have hr' : st.es.ready = false := by simpa using hr
      cases hdbg : cfg.debug with
      | true =>
        refine ⟨by simp [runCall, VLoggo.fatal, hlog, hr', hdbg], ?_⟩
        intro e he
        simp [runCall, VLoggo.fatal, hlog, hr', hdbg] at he
        rcases he with rfl | rfl <;> rfl
      | false =>
        refine ⟨by simp [runCall, VLoggo.fatal, hlog, hr', hdbg], ?_⟩
        intro e he
        simp [runCall, VLoggo.fatal, hlog, hr', hdbg] at he
        subst he; rfl

/-- C10: a failed construction-time initialization is permanent at the
public interface.  When `initialized` is false, any sequence of public
calls (`info`, `warn`, `debug`, `error`, `fatal`) leaves the retention
state exactly as it was and produces no filesystem effect whatsoever: the
internal `log` returns before `verify`, nothing re-invokes `initialize`,
so `initialized` can never become true again. -/
theorem C10_failed_init_permanent (cfg : Config) (calls : List PublicCall)
    (st : VLoggoState) (h : st.fs.initialized = false) :
    (runCalls cfg calls st).1.fs = st.fs ∧
    ∀ e ∈ (runCalls cfg calls st).2, e.isFileEffect = false := by
  induction calls generalizing st with
  | nil => exact ⟨rfl, by simp [runCalls]⟩
  | cons c cs ih =>
    obtain ⟨h1, h2⟩ := runCall_keeps_fs cfg st c h
    have hfs2 : (runCall cfg st c).1.fs.initialized = false := by rw [h1]; exact h
    obtain ⟨h3, h4⟩ := ih (runCall cfg st c).1 hfs2
    refine ⟨by simp only [runCalls]; rw [h3, h1], ?_⟩
    intro e he
    simp only [runCalls, List.mem_append] at he
    rcases he with he | he
    · exact h2 e he
    · exact h4 e he

/-- C10 witness: a concrete uninitialized instance stays untouched across
a mixed sequence of public calls. -/
theorem C10_failed_init_permanent_witness :
    (runCalls cfgTxt
      [PublicCall.info "A" "x" envDay6, PublicCall.fatal "B" "y" envDay6 40000 true,
       PublicCall.error "C" "z" envDay6]
      ⟨fsFresh, esReady⟩).1.fs = fsFresh :=
  (C10_failed_init_permanent cfgTxt
    [PublicCall.info "A" "x" envDay6, PublicCall.fatal "B" "y" envDay6 40000 true,
     PublicCall.error "C" "z" envDay6]
    ⟨fsFresh, esReady⟩ rfl).1

end Vloggo
